import Mathlib

/-!
Verification of the AI gateway pipeline in `gateway.py` / `templates.py`:
PII tokenization vault, model router, schema validator, cost accountant,
bounded audit log, and the `process` orchestrator.

Python values flowing through the pipeline (parsed JSON, validator results)
are modelled by the inductive type `Json`; Python dicts are modelled as
insertion-ordered association lists.  Library calls that the gateway makes
(`hashlib.md5(...).hexdigest()[:6]`, the compiled regex matchers, and
`json.loads`) are taken as function parameters of the embedding, since their
internals live outside the repository; everything else is translated
directly from the source.
-/

set_option autoImplicit false

namespace SCGateway

/-- JSON-like values: the shape of data produced by `json.loads` and passed
through `_validate_schema`, `_detokenize` and `_mask_for_display`.
Python dicts appear as insertion-ordered association lists. -/
inductive Json where
  | null : Json
  | bool : Bool → Json
  | num : ℚ → Json
  | str : String → Json
  | arr : List Json → Json
  | obj : List (String × Json) → Json

/-- Whether a `Json` value is a Python dict (`isinstance(value, dict)`). -/
def Json.isObj : Json → Bool
  | .obj _ => true
  | _ => false

/-! ## Python string primitives used by the gateway -/

/-- Python whitespace characters recognised by `str.split()` and the regex
class `\s` (ASCII range): space, tab, newline, carriage return, vertical
tab, form feed. -/
def isPySpace (c : Char) : Bool :=
  c = ' ' || c = '\t' || c = '\n' || c = '\r' || c = '\x0b' || c = '\x0c'

/-- A regex word character `\w` (ASCII range): alphanumeric or underscore. -/
def isWordChar (c : Char) : Bool :=
  c.isAlphanum || c = '_'

/-- `str.split()` with no argument over a character list: splits on runs of
whitespace and drops empty pieces. -/
def pySplitAux : List Char → List Char → List (List Char)
  | [], acc => if acc = [] then [] else [acc.reverse]
  | c :: cs, acc =>
      if isPySpace c then
        if acc = [] then pySplitAux cs [] else acc.reverse :: pySplitAux cs []
      else pySplitAux cs (c :: acc)

/-- Python `text.split()`: whitespace-delimited words. -/
def pySplit (s : String) : List String :=
  (pySplitAux s.data []).map List.asString

/-- Whether `needle` occurs as a contiguous sublist of `hay`
(Python `needle in hay` for strings). -/
def sublistAt : List Char → List Char → Bool
  | needle, [] => needle = []
  | needle, c :: cs => needle.isPrefixOf (c :: cs) || sublistAt needle cs

/-- Python substring test `sub in s`. -/
def pySubstr (sub s : String) : Bool :=
  sublistAt sub.data s.data

/-- `text.replace(old, new, 1)` over character lists: replace the first
occurrence of `old` (if any) by `new`; with `old = []` Python inserts `new`
at the front, which the `isPrefixOf` test also yields. -/
def replaceFirstAux (old new : List Char) : List Char → List Char
  | [] => if old = [] then new else []
  | c :: cs =>
      if old.isPrefixOf (c :: cs) then new ++ (c :: cs).drop old.length
      else c :: replaceFirstAux old new cs

/-- Python `text.replace(old, new, 1)`. -/
def replaceFirst (s old new : String) : String :=
  (replaceFirstAux old.data new.data s.data).asString

/-- Python `s.startswith(pre)`. -/
def pyStartsWith (s pre : String) : Bool :=
  pre.data.isPrefixOf s.data

/-- Python `s.split(sep)` for a one-character separator: keeps empty
pieces, so the result always has one more piece than there are separator
occurrences. -/
def splitOnChar (sep : Char) : List Char → List (List Char)
  | [] => [[]]
  | c :: cs =>
      if c = sep then [] :: splitOnChar sep cs
      else
        match splitOnChar sep cs with
        | piece :: rest => (c :: piece) :: rest
        | [] => [[c]]

/-! ## PII vault (`self.pii_vault`, a Python dict token → original value) -/

/-- The vault dict, as an insertion-ordered association list. -/
abbrev Vault := List (String × String)

/-- Python `dict.get(k, default-absent)`: value of the first (unique) entry
with key `k`. -/
def vaultLookup (v : Vault) (k : String) : Option String :=
  match v with
  | [] => none
  | (k', val) :: rest => if k' = k then some val else vaultLookup rest k

/-- Python `dict[k] = val`: update in place when the key exists, else append
(dicts preserve insertion order). -/
def vaultInsert (v : Vault) (k val : String) : Vault :=
  if (v.map Prod.fst).contains k then
    v.map (fun p => if p.1 = k then (k, val) else p)
  else v ++ [(k, val)]

/-- The keys of the registered PII pattern dict `self.pii_patterns`. -/
def piiPatternTypes : List String := ["email", "phone", "iban"]

/-- Python `s.upper()` (ASCII range). -/
def pyUpper (s : String) : String :=
  (s.data.map Char.toUpper).asString

/-- `gateway.py` line 95: `f"PII_{pii_type.upper()}_{hashlib.md5(match.encode()).hexdigest()[:6]}"`.
`digest` stands for the library call `md5(·).hexdigest()[:6]` (a fixed
function of the matched value). -/
def mkToken (digest : String → String) (piiType value : String) : String :=
  "PII_" ++ pyUpper piiType ++ "_" ++ digest value

/-- Inner loop of `_anonymize_pii` (lines 93-102): for each regex match,
compute the token, store `token → match` in the vault, replace the first
remaining occurrence of the match in the working text, and bump the count. -/
def anonymizeMatches (digest : String → String) (piiType : String) :
    List String → String × Nat × Vault → String × Nat × Vault
  | [], acc => acc
  | m :: ms, (text, count, vault) =>
      let token := mkToken digest piiType m
      anonymizeMatches digest piiType ms
        (replaceFirst text m token, count + 1, vaultInsert vault token m)

/-- `AIGateway._anonymize_pii` (lines 76-104).  `matcher ty text` stands for
`self.pii_patterns[ty].findall(text)`, the list of regex matches of the
compiled pattern for `ty` in `text`, in source order.  Types not present in
the pattern registry are skipped. -/
def anonymize_pii (digest : String → String)
    (matcher : String → String → List String)
    (vault : Vault) (text : String) (piiTypes : List String) :
    String × Nat × Vault :=
  piiTypes.foldl
    (fun acc ty =>
      if piiPatternTypes.contains ty then
        anonymizeMatches digest ty (matcher ty acc.1) acc
      else acc)
    (text, 0, vault)

/-! ## Detokenization and display masking -/

mutual

/-- `AIGateway._detokenize` (lines 257-273): on a dict, rebuild it entry by
entry; recursion happens only for the key `'data'` holding a dict; a string
value starting with `'PII_'` is looked up in the vault (itself on a miss);
everything else, including non-dict top-level values, passes through. -/
def detokenize (vault : Vault) : Json → Json
  | .obj kvs => .obj (detokenizeEntries vault kvs)
  | j => j

/-- The `for key, value in data.items()` loop of `_detokenize`. -/
def detokenizeEntries (vault : Vault) : List (String × Json) → List (String × Json)
  | [] => []
  | (k, v) :: rest =>
      (k,
        if k = "data" && v.isObj then detokenize vault v
        else
          match v with
          | .str s => if pyStartsWith s "PII_" then .str ((vaultLookup vault s).getD s) else .str s
          | _ => v) :: detokenizeEntries vault rest

end

/-- The masking of one original value, lines 288-296 of `_mask_for_display`.
`none` models the uncaught `IndexError` from `parts[0][0]` when the part
before the first `'@'` is empty.  Note `original.split('@')` may have more
than two parts; the f-string uses `parts[1]`, the text between the first
and second `'@'`. -/
def maskValue (original : String) : Option String :=
  if original.data.contains '@' then
    match splitOnChar '@' original.data with
    | p0 :: p1 :: _ =>
        if p0.isEmpty then none
        else some ((p0.take 1).asString ++ "***@" ++ p1.asString)
    | _ => none
  else if !(original.data.filter (fun c => c ≠ '-' && c ≠ '.')).isEmpty &&
          (original.data.filter (fun c => c ≠ '-' && c ≠ '.')).all Char.isDigit then
    some ("***-***-" ++ (original.data.drop (original.data.length - 4)).asString)
  else
    some ((original.data.take 2).asString ++ "***")

mutual

/-- `AIGateway._mask_for_display` (lines 275-300): same walk as
`_detokenize` (recursing only under the key `'data'`), but a string value
starting with `'PII_'` is replaced by the masked rendering of its vault
value (of the token itself on a vault miss).  `none` models an uncaught
`IndexError` inside the masking of some value. -/
def mask_for_display (vault : Vault) : Json → Option Json
  | .obj kvs => do pure (.obj (← maskEntries vault kvs))
  | j => some j

/-- The `for key, value in data.items()` loop of `_mask_for_display`. -/
def maskEntries (vault : Vault) : List (String × Json) → Option (List (String × Json))
  | [] => some []
  | (k, v) :: rest => do
      let v' ←
        if k = "data" && v.isObj then mask_for_display vault v
        else
          match v with
          | .str s =>
              if pyStartsWith s "PII_" then do
                pure (Json.str (← maskValue ((vaultLookup vault s).getD s)))
              else pure (Json.str s)
          | _ => pure v
      let rest' ← maskEntries vault rest
      pure ((k, v') :: rest')

end

/-! ## Configuration (`templates.py`) and model router -/

/-- The configuration dict fields read by the gateway.  Fields the templates
may omit (`model`, `complexity_threshold`, `fallback_model`, `template`)
are `Option`s; the gateway reads them through `dict.get` with the defaults
visible at each use site. -/
structure Config where
  template : Option String
  model : Option String
  fallbackModel : Option String
  complexityThreshold : Option Nat
  piiMasking : List String
  outputSchemaRequired : List String

/-- `AIGateway._route_model` (lines 106-121).  `word_count` is
`len(input_text.split())`; `has_complex_patterns` is
`re.search(r'[^\w\s]', input_text)` — a character that is neither a word
character (alphanumeric or underscore) nor whitespace; the fallback is used
only when truthy (present and nonempty). -/
def route_model (inputText : String) (cfg : Config) : String :=
  let baseModel := cfg.model.getD "gpt-4o-mini"
  let wordCount := (pySplit inputText).length
  let threshold := cfg.complexityThreshold.getD 100
  let hasComplexPatterns := inputText.data.any (fun c => !(isWordChar c || isPySpace c))
  if wordCount > threshold || hasComplexPatterns then
    match cfg.fallbackModel with
    | some fb => if fb ≠ "" then fb else baseModel
    | none => baseModel
  else baseModel

/-- `templates.get_template`: `TEMPLATES.get(template_name)`, with the three
configurations of `templates.py` restricted to the fields in `Config`. -/
def getTemplate (name : String) : Option Config :=
  if name = "support_ticket_classifier" then
    some { template := some "classification", model := some "gpt-4o-mini",
           fallbackModel := none, complexityThreshold := none,
           piiMasking := ["email", "phone"],
           outputSchemaRequired := ["category", "confidence", "reasoning"] }
  else if name = "onboarding_document_extractor" then
    some { template := some "extraction", model := some "gpt-4o-mini",
           fallbackModel := some "o1-mini", complexityThreshold := none,
           piiMasking := ["email", "iban", "phone"],
           outputSchemaRequired := ["name", "email", "iban", "risk_score"] }
  else if name = "employee_faq_bot" then
    some { template := some "qa", model := some "gpt-4o-mini",
           fallbackModel := none, complexityThreshold := none,
           piiMasking := ["email", "phone"],
           outputSchemaRequired := ["answer", "source", "confidence"] }
  else none

/-! ## Schema validator -/

/-- Python `field in parsed` for a parsed JSON value: key membership for
dicts, element equality for lists, substring test for strings, and a
`TypeError` (`none`) for the non-container scalars. -/
def pyContains (parsed : Json) (field : String) : Option Bool :=
  match parsed with
  | .obj kvs => some ((kvs.map Prod.fst).contains field)
  | .arr xs => some (xs.any (fun j => match j with | .str s => s = field | _ => false))
  | .str s => some (pySubstr field s)
  | _ => none

/-- The result dict of `_validate_schema`. -/
structure VResult where
  data : Json
  validation_passed : Bool
  missing_fields : List String

/-- `[field for field in required if field not in parsed]`; `none` models a
`TypeError` escaping the comprehension (the `except` clause catches only
`json.JSONDecodeError`). -/
def missingFieldsOf (parsed : Json) : List String → Option (List String)
  | [] => some []
  | f :: fs => do
      let b ← pyContains parsed f
      let rest ← missingFieldsOf parsed fs
      pure (if b then rest else f :: rest)

/-- `AIGateway._validate_schema` (lines 186-206).  `parsed` is the outcome
of `json.loads(response)` (`none` = `json.JSONDecodeError`); `required` is
`config.get('output_schema', {}).get('required', [])`.  The overall `none`
models an uncaught `TypeError` from `field not in parsed`. -/
def validate_schema (response : String) (parsed : Option Json)
    (required : List String) : Option VResult :=
  match parsed with
  | none =>
      some { data := .obj [("error", .str "Invalid JSON response"),
                           ("raw_response", .str response)],
             validation_passed := false, missing_fields := [] }
  | some p => do
      let missing ← missingFieldsOf p required
      pure { data := p, validation_passed := missing.length = 0,
             missing_fields := missing }

/-- The validator's result as the dict that flows into detokenize/mask and
the audit logger. -/
def VResult.toJson (v : VResult) : Json :=
  .obj [("data", v.data),
        ("validation_passed", .bool v.validation_passed),
        ("missing_fields", .arr (v.missing_fields.map Json.str))]

/-! ## Cost accountant -/

/-- Round to the nearest integer, ties to even (Python `round`'s rule). -/
def roundHalfEven (q : ℚ) : ℤ :=
  let n := ⌊q⌋
  let f := q - n
  if f < 1/2 then n
  else if (1 : ℚ)/2 < f then n + 1
  else if n % 2 = 0 then n else n + 1

/-- Python `round(x, ndigits)`, with the float arithmetic idealised over the
rationals. -/
def pyRound (q : ℚ) (ndigits : Nat) : ℚ :=
  (roundHalfEven (q * 10 ^ ndigits) : ℚ) / 10 ^ ndigits

/-- `self.MODEL_COSTS` (lines 28-32): per-model `(input, output)` rates,
with the float literals read as exact decimals. -/
def MODEL_COSTS : List (String × (ℚ × ℚ)) :=
  [("gpt-4o-mini", (15/100000, 6/10000)),
   ("gpt-4o", (25/10000, 1/100)),
   ("o1-mini", (15/100000, 6/10000))]

/-- `dict.get` on the rate table. -/
def modelCostLookup (model : String) : Option (ℚ × ℚ) :=
  match MODEL_COSTS.find? (fun p => p.1 = model) with
  | some p => some p.2
  | none => none

/-- Line 211: `(input_tokens * model_costs['input'] + output_tokens *
model_costs['output']) / 1000`, with `model_costs` falling back to the
`gpt-4o-mini` rates for an unknown model. -/
def rawCost (model : String) (inputTokens outputTokens : Nat) : ℚ :=
  let rates := (modelCostLookup model).getD (15/100000, 6/10000)
  (inputTokens * rates.1 + outputTokens * rates.2) / 1000

/-- `AIGateway._calculate_cost` (lines 208-213): rates from the table with
`gpt-4o-mini` as the fallback; the *unrounded* cost is added to the running
total `self.total_cost`, while the returned value is `round(cost, 6)`.
Returns `(returned cost, new running total)`. -/
def calculate_cost (model : String) (inputTokens outputTokens : Nat)
    (totalCost : ℚ) : ℚ × ℚ :=
  let cost := rawCost model inputTokens outputTokens
  (pyRound cost 6, totalCost + cost)

/-- A sequence of `_calculate_cost` calls threading `self.total_cost`. -/
def runCosts (calls : List (String × Nat × Nat)) (totalCost : ℚ) : ℚ :=
  calls.foldl (fun tc c => (calculate_cost c.1 c.2.1 c.2.2 tc).2) totalCost

/-! ## Audit log and statistics -/

/-- One entry of `self.audit_log`, as built by `_log_audit` (lines 218-230).
`confidence` is stored as the raw value `output['data'].get('confidence', 0)`. -/
structure AuditEntry where
  timestamp : String
  use_case : String
  original_input_length : Nat
  cleaned_input_length : Nat
  pii_masked_count : Nat
  model_used : String
  output_keys : List String
  cost : ℚ
  processing_time : ℚ
  confidence : Json
  validation_passed : Bool

/-- `deque(maxlen=1000).append`: append on the right, discarding from the
left whatever exceeds the capacity of 1000. -/
def auditAppend (log : List AuditEntry) (e : AuditEntry) : List AuditEntry :=
  (log ++ [e]).drop ((log ++ [e]).length - 1000)

/-- `AIGateway.get_audit_log` (lines 250-255):
`list(self.audit_log)[-limit:]` after an early `[]` on an empty log.  Note
that for `limit = 0` the slice `[-0:]` is `[0:]`, the whole list. -/
def get_audit_log (log : List AuditEntry) (limit : Nat) : List AuditEntry :=
  if log.isEmpty then []
  else if limit = 0 then log
  else log.drop (log.length - limit)

/-- The mutable gateway fields set up in `AIGateway.__init__`. -/
structure GatewayState where
  auditLog : List AuditEntry
  totalCost : ℚ
  requestCount : Nat
  piiVault : Vault

/-- The freshly constructed gateway. -/
def initialState : GatewayState :=
  { auditLog := [], totalCost := 0, requestCount := 0, piiVault := [] }

/-- Python `acc + entry['confidence']`: numbers add, booleans count as 0/1,
anything else is a `TypeError` (`none`). -/
def pyNumAdd (acc : ℚ) (j : Json) : Option ℚ :=
  match j with
  | .num q => some (acc + q)
  | .bool b => some (acc + (if b then 1 else 0))
  | _ => none

/-- Left-to-right accumulation of `sum(...)`. -/
def sumConfidenceAux (acc : ℚ) : List AuditEntry → Option ℚ
  | [] => some acc
  | e :: es => do sumConfidenceAux (← pyNumAdd acc e.confidence) es

/-- `sum(entry.get('confidence', 0) for entry in self.audit_log)`. -/
def sumConfidence (log : List AuditEntry) : Option ℚ :=
  sumConfidenceAux 0 log

/-- `sum(entry['processing_time'] for entry in self.audit_log)`. -/
def sumProcessingTime (log : List AuditEntry) : ℚ :=
  (log.map AuditEntry.processing_time).sum

/-- `AIGateway.get_stats` (lines 235-248): a three-key zero aggregate on an
empty log; otherwise `requests` and `total_cost` from the lifetime counters,
`avg_cost_per_request` from `total_cost / request_count` (lifetime), and
`avg_confidence` / `avg_processing_time` averaged over the retained
entries.  `none` models a `TypeError` from summing a non-numeric
confidence. -/
def get_stats (st : GatewayState) : Option Json :=
  if st.auditLog.isEmpty then
    some (.obj [("requests", .num 0), ("total_cost", .num 0),
                ("avg_confidence", .num 0)])
  else do
    let n : ℚ := st.auditLog.length
    let avgConfidence := (← sumConfidence st.auditLog) / n
    pure (.obj
      [("requests", .num st.requestCount),
       ("total_cost", .num (pyRound st.totalCost 6)),
       ("avg_cost_per_request",
         .num (if st.requestCount > 0 then pyRound (st.totalCost / st.requestCount) 6 else 0)),
       ("avg_confidence", .num (pyRound avgConfidence 2)),
       ("avg_processing_time", .num (pyRound (sumProcessingTime st.auditLog / n) 2))])

/-- `dict.get` on a `Json` object's entry list. -/
def objLookup (kvs : List (String × Json)) (k : String) : Option Json :=
  match kvs with
  | [] => none
  | (k', v) :: rest => if k' = k then some v else objLookup rest k

/-- `AIGateway._log_audit`'s entry construction (lines 218-230).  `none`
models the `AttributeError` from `output['data'].keys()` /
`output['data'].get(...)` when the validated payload is not a dict. -/
def mkAuditEntry (now : String) (useCase originalInput cleanInput : String)
    (v : VResult) (cost elapsed : ℚ) (model : String) (piiCount : Nat) :
    Option AuditEntry :=
  match v.data with
  | .obj kvs =>
      some { timestamp := now, use_case := useCase,
             original_input_length := originalInput.length,
             cleaned_input_length := cleanInput.length,
             pii_masked_count := piiCount, model_used := model,
             output_keys := kvs.map Prod.fst, cost := cost,
             processing_time := elapsed,
             confidence := (objLookup kvs "confidence").getD (.num 0),
             validation_passed := v.validation_passed }
  | _ => none

/-! ## Pipeline orchestrator -/

/-- The uncaught Python exceptions the pipeline can raise. -/
inductive PyErr where
  | attributeError : PyErr
  | typeError : PyErr
  | indexError : PyErr

/-- The dict returned by `AIGateway.process` (lines 64-74). -/
structure ProcessResult where
  original_input : String
  tokenized_input : String
  model_used : String
  output : Json
  backend_output : Json
  cost : ℚ
  processing_time : ℚ
  pii_tokenized_count : Nat
  pii_tokens : List String

/-- `AIGateway.process` (lines 38-74) as a state transition, paired with
either the returned result or the uncaught exception at the point it is
raised.  Parameters standing for effects outside the pipeline logic:
`digest`/`matcher` as in `anonymize_pii`, `parse` for `json.loads`, `llm`
for `_call_llm` (the external model call or its canned mock response, a
string consumed only by the validator), `strWords` for
`len(str(validated).split())`, `now` for `datetime.now().isoformat()`, and
`elapsedA`/`elapsedR` for the two `time.time() - start_time` readings.  A
`None` config (the `get_template` miss for an unknown use case) raises
`AttributeError` at `config.get('pii_masking', [])`, before any state is
touched. -/
def process (digest : String → String) (matcher : String → String → List String)
    (parse : String → Option Json) (llm : String → String → String)
    (strWords : Json → Nat) (now : String) (elapsedA elapsedR : ℚ)
    (useCase inputText : String) (config : Option Config)
    (st : GatewayState) : GatewayState × Except PyErr ProcessResult :=
  match config with
  | none => (st, .error .attributeError)
  | some cfg =>
    let a := anonymize_pii digest matcher st.piiVault inputText cfg.piiMasking
    let tokenizedInput := a.1
    let piiCount := a.2.1
    let vault' := a.2.2
    let st1 := { st with piiVault := vault' }
    let model := route_model inputText cfg
    let response := llm model tokenizedInput
    match validate_schema response (parse response) cfg.outputSchemaRequired with
    | none => (st1, .error .typeError)
    | some validated =>
      let backendOutput := detokenize vault' validated.toJson
      match mask_for_display vault' validated.toJson with
      | none => (st1, .error .indexError)
      | some displayOutput =>
        let rc := calculate_cost model (pySplit tokenizedInput).length
                    (strWords validated.toJson) st1.totalCost
        let st2 := { st1 with totalCost := rc.2 }
        match mkAuditEntry now useCase inputText tokenizedInput validated
                rc.1 elapsedA model piiCount with
        | none => (st2, .error .attributeError)
        | some entry =>
          let st3 := { st2 with auditLog := auditAppend st2.auditLog entry,
                                requestCount := st2.requestCount + 1 }
          (st3, .ok { original_input := inputText,
                      tokenized_input := tokenizedInput,
                      model_used := model, output := displayOutput,
                      backend_output := backendOutput, cost := rc.1,
                      processing_time := elapsedR,
                      pii_tokenized_count := piiCount,
                      pii_tokens := st3.piiVault.map Prod.fst })

/-! ## Spec-worded reference definitions (for refinement comparisons only) -/

/-- Modelled from the spec wording of the router: complexity as "presence
of any character outside alphanumeric/whitespace" (no underscore
exception), to be compared with `route_model`'s `\w`-based test. -/
def route_model_claim (inputText : String) (cfg : Config) : String :=
  let baseModel := cfg.model.getD "gpt-4o-mini"
  let wordCount := (pySplit inputText).length
  let threshold := cfg.complexityThreshold.getD 100
  let hasComplexPatterns := inputText.data.any (fun c => !(c.isAlphanum || isPySpace c))
  if wordCount > threshold || hasComplexPatterns then
    match cfg.fallbackModel with
    | some fb => if fb ≠ "" then fb else baseModel
    | none => baseModel
  else baseModel

/-- Modelled from the spec wording of the validator: "missingFields equal
to exactly the schema-required fields absent from the object's keys" (a
non-object has no keys), to be compared with `missingFieldsOf`. -/
def missingFieldsClaim (parsed : Json) (required : List String) : List String :=
  let keys := match parsed with | .obj kvs => kvs.map Prod.fst | _ => []
  required.filter (fun f => !keys.contains f)

/-- Observer: one field of the `get_stats` aggregate dict. -/
def statsField (st : GatewayState) (k : String) : Option Json :=
  (get_stats st).bind (fun j => match j with | .obj kvs => objLookup kvs k | _ => none)


/-! ## Helper lemmas on the vault -/

theorem vaultLookup_none_key_ne {v : Vault} {k : String}
    (h : vaultLookup v k = none) : ∀ p ∈ v, p.1 ≠ k := by
  induction v with
  | nil => intro p hp; cases hp
  | cons a rest ih =>
      intro p hp
      unfold vaultLookup at h
      by_cases hak : a.1 = k
      · simp [hak] at h
      · simp only [hak, if_false] at h
        rcases List.mem_cons.mp hp with hp | hp
        · simpa [hp] using hak
        · exact ih h p hp

theorem vaultLookup_none_of_not_mem {v : Vault} {k : String}
    (h : k ∉ v.map Prod.fst) : vaultLookup v k = none := by
  induction v with
  | nil => rfl
  | cons a rest ih =>
      have hak : ¬ a.1 = k := by
        intro hk; exact h (by simp [hk])
      unfold vaultLookup
      rw [if_neg hak]
      exact ih (fun hm => h (by simp [hm]))

theorem contains_eq_false_of_lookup_none {v : Vault} {k : String}
    (h : vaultLookup v k = none) : (v.map Prod.fst).contains k = false := by
  have hk : k ∉ v.map Prod.fst := by
    intro hmem
    rcases List.mem_map.mp hmem with ⟨p, hp, hpk⟩
    exact vaultLookup_none_key_ne h p hp hpk
  simp [List.contains, hk]

theorem vaultInsert_of_lookup_none {v : Vault} {k : String} (val : String)
    (h : vaultLookup v k = none) : vaultInsert v k val = v ++ [(k, val)] := by
  unfold vaultInsert
  rw [contains_eq_false_of_lookup_none h]
  simp

theorem vaultLookup_append_self {v : Vault} {k : String} (val : String)
    (h : vaultLookup v k = none) : vaultLookup (v ++ [(k, val)]) k = some val := by
  induction v with
  | nil => simp [vaultLookup]
  | cons a rest ih =>
      unfold vaultLookup at h ⊢
      by_cases hak : a.1 = k
      · simp [hak] at h
      · simp only [List.cons_append, hak, if_false]
        exact ih (by simpa [hak] using h)

theorem map_update_id {v : Vault} {k : String} (val : String)
    (h : ∀ p ∈ v, p.1 ≠ k) :
    v.map (fun p => if p.1 = k then (k, val) else p) = v := by
  induction v with
  | nil => rfl
  | cons a rest ih =>
      simp only [List.map_cons]
      rw [if_neg (h a (List.mem_cons_self a rest)),
          ih (fun p hp => h p (List.mem_cons_of_mem a hp))]

theorem vaultInsert_append_same {v : Vault} {k : String} (val : String)
    (h : vaultLookup v k = none) :
    vaultInsert (v ++ [(k, val)]) k val = v ++ [(k, val)] := by
  unfold vaultInsert
  have hc : ((v ++ [(k, val)]).map Prod.fst).contains k = true := by
    simp [List.contains]
  rw [hc]
  simp only [if_true, List.map_append, List.map_cons, List.map_nil]
  rw [map_update_id val (vaultLookup_none_key_ne h)]

theorem lookup_map_update {v : Vault} {k : String} (val : String)
    (hc : k ∈ v.map Prod.fst) :
    vaultLookup (v.map (fun p => if p.1 = k then (k, val) else p)) k = some val := by
  induction v with
  | nil => cases hc
  | cons a rest ih =>
      simp only [List.map_cons]
      by_cases hak : a.1 = k
      · rw [if_pos hak]
        simp [vaultLookup]
      · rw [if_neg hak]
        unfold vaultLookup
        rw [if_neg hak]
        apply ih
        simp only [List.map_cons, List.mem_cons] at hc
        rcases hc with hk | hk
        · exact absurd hk.symm hak
        · exact hk

theorem vaultLookup_insert_self (v : Vault) (k val : String) :
    vaultLookup (vaultInsert v k val) k = some val := by
  unfold vaultInsert
  by_cases hc : k ∈ v.map Prod.fst
  · rw [if_pos (by simp [List.contains, hc])]
    exact lookup_map_update val hc
  · rw [if_neg (by simp [List.contains, hc])]
    exact vaultLookup_append_self val (vaultLookup_none_of_not_mem hc)

/-! ## Helper lemmas on strings and tokens -/

theorem isPrefixOf_append_self (a b : List Char) : a.isPrefixOf (a ++ b) = true := by
  induction a with
  | nil => simp [List.isPrefixOf]
  | cons c cs ih => simp [List.isPrefixOf, ih]

theorem pyStartsWith_mkToken (digest : String → String) (piiType value : String) :
    pyStartsWith (mkToken digest piiType value) "PII_" = true := by
  unfold pyStartsWith mkToken
  rw [String.data_append, String.data_append, String.data_append, List.append_assoc,
      List.append_assoc]
  exact isPrefixOf_append_self _ _

/-- The vault produced by a single-match tokenization run. -/
theorem anonymize_pii_single_type (digest : String → String)
    (matcher : String → String → List String) (vault : Vault)
    (text ty : String) (hty : piiPatternTypes.contains ty = true) :
    anonymize_pii digest matcher vault text [ty] =
      anonymizeMatches digest ty (matcher ty text) (text, 0, vault) := by
  unfold anonymize_pii
  simp only [List.foldl_cons, List.foldl_nil, hty, if_true]

/-! ## C2: dedup by value -/

/-- C2: tokenizing a text in which the pattern for a registered type finds
the same literal value twice produces the same deterministic token
`PII_<TYPE>_<digest>` for both occurrences (both replacements use it),
returns `count = 2`, and leaves exactly one new vault entry for that value:
the vault after the run is the old vault extended by the single pair
`(token, value)`, so its size is unchanged by the second occurrence. -/
theorem claim2_anonymize_dedup
    (digest : String → String) (matcher : String → String → List String)
    (vault : Vault) (text ty v : String)
    (hty : piiPatternTypes.contains ty = true)
    (hm : matcher ty text = [v, v])
    (hfresh : vaultLookup vault (mkToken digest ty v) = none) :
    anonymize_pii digest matcher vault text [ty] =
      (replaceFirst (replaceFirst text v (mkToken digest ty v)) v (mkToken digest ty v),
       2, vault ++ [(mkToken digest ty v, v)]) := by
  rw [anonymize_pii_single_type digest matcher vault text ty hty, hm]
  unfold anonymizeMatches
  unfold anonymizeMatches
  unfold anonymizeMatches
  rw [vaultInsert_of_lookup_none v hfresh, vaultInsert_append_same v hfresh]

/-- Concrete run of C2: the value `a@b.co` occurring twice is tokenized to
the same token twice, counted twice, and stored once. -/
theorem claim2_witness :
    piiPatternTypes.contains "email" = true ∧
    vaultLookup [] (mkToken (fun _ => "abc123") "email" "a@b.co") = none ∧
    anonymize_pii (fun _ => "abc123") (fun _ _ => ["a@b.co", "a@b.co"])
        [] "a@b.co and a@b.co" ["email"] =
      ("PII_EMAIL_abc123 and PII_EMAIL_abc123", 2, [("PII_EMAIL_abc123", "a@b.co")]) := by
  refine ⟨by decide, by decide, ?_⟩
  exact (claim2_anonymize_dedup (fun _ => "abc123") (fun _ _ => ["a@b.co", "a@b.co"])
    [] "a@b.co and a@b.co" "email" "a@b.co" (by decide) rfl (by decide)).trans (by decide)

/-! ## C1: round-trip and the scope of the detokenize walk -/

/-- C1 counterexample: the value `a@b.co` is tokenized into the vault by
`_anonymize_pii` and its token appears as a string value inside a nested
mapping under the key `outer`; `_detokenize` leaves the whole structure
unchanged (it recurses only under the key `data`), so the stored original
is not restored, contrary to the claim that every nested mapping is walked
and every vault-key string value is replaced. -/
theorem claim1_counterexample :
    vaultLookup
        (anonymize_pii (fun _ => "abc123") (fun _ _ => ["a@b.co"])
          [] "Contact a@b.co" ["email"]).2.2 "PII_EMAIL_abc123" = some "a@b.co" ∧
    detokenize
        (anonymize_pii (fun _ => "abc123") (fun _ _ => ["a@b.co"])
          [] "Contact a@b.co" ["email"]).2.2
        (.obj [("outer", .obj [("email", .str "PII_EMAIL_abc123")])]) =
      .obj [("outer", .obj [("email", .str "PII_EMAIL_abc123")])] ∧
    ("PII_EMAIL_abc123" : String) ≠ "a@b.co" := by
  exact ⟨by decide, rfl, by decide⟩

/-- C1 amended: after tokenizing a detected value `m` of a registered type,
the vault maps its token to `m`, and detokenization restores `m` for the
token appearing as a string value at the top level of a mapping or inside a
mapping stored under the key `data`; a nested mapping under any other key
is left unvisited, and non-string values pass through unchanged. -/
theorem claim1_roundtrip_data_scope
    (digest : String → String) (matcher : String → String → List String)
    (vault : Vault) (text ty m k k' : String) (inner : List (String × Json))
    (q : ℚ) (b : Bool)
    (hty : piiPatternTypes.contains ty = true)
    (hm : matcher ty text = [m])
    (hk' : k' ≠ "data") :
    vaultLookup (anonymize_pii digest matcher vault text [ty]).2.2
        (mkToken digest ty m) = some m ∧
    detokenize (anonymize_pii digest matcher vault text [ty]).2.2
        (.obj [(k, .str (mkToken digest ty m))]) = .obj [(k, .str m)] ∧
    detokenize (anonymize_pii digest matcher vault text [ty]).2.2
        (.obj [("data", .obj [(k, .str (mkToken digest ty m))])]) =
      .obj [("data", .obj [(k, .str m)])] ∧
    detokenize (anonymize_pii digest matcher vault text [ty]).2.2
        (.obj [(k', .obj inner)]) = .obj [(k', .obj inner)] ∧
    detokenize (anonymize_pii digest matcher vault text [ty]).2.2
        (.obj [(k, .num q), (k, .bool b), (k, .null), (k, .arr [])]) =
      .obj [(k, .num q), (k, .bool b), (k, .null), (k, .arr [])] := by
  have hv : (anonymize_pii digest matcher vault text [ty]).2.2 =
      vaultInsert vault (mkToken digest ty m) m := by
    rw [anonymize_pii_single_type digest matcher vault text ty hty, hm]
    unfold anonymizeMatches
    unfold anonymizeMatches
    rfl
  have hlook := vaultLookup_insert_self vault (mkToken digest ty m) m
  refine ⟨by rw [hv]; exact hlook, ?_, ?_, ?_, ?_⟩
  · simp [detokenize, detokenizeEntries, Json.isObj, pyStartsWith_mkToken, hv, hlook]
  · simp [detokenize, detokenizeEntries, Json.isObj, pyStartsWith_mkToken, hv, hlook]
  · simp [detokenize, detokenizeEntries, Json.isObj, hk']
  · simp [detokenize, detokenizeEntries, Json.isObj]

/-- Concrete round-trip for C1: the tokenized email is restored at the top
level and under `data`, while a mapping under another key is unvisited. -/
theorem claim1_witness :
    piiPatternTypes.contains "email" = true ∧ ("outer" : String) ≠ "data" ∧
    vaultLookup (anonymize_pii (fun _ => "abc123") (fun _ _ => ["a@b.co"])
        [] "Contact a@b.co" ["email"]).2.2 (mkToken (fun _ => "abc123") "email" "a@b.co") =
      some "a@b.co" ∧
    detokenize (anonymize_pii (fun _ => "abc123") (fun _ _ => ["a@b.co"])
        [] "Contact a@b.co" ["email"]).2.2
        (.obj [("data", .obj [("email", .str (mkToken (fun _ => "abc123") "email" "a@b.co"))])]) =
      .obj [("data", .obj [("email", .str "a@b.co")])] := by
  refine ⟨by decide, by decide, ?_, ?_⟩
  · exact (claim1_roundtrip_data_scope (fun _ => "abc123") (fun _ _ => ["a@b.co"])
      [] "Contact a@b.co" "email" "a@b.co" "email" "outer" [] 0 false
      (by decide) rfl (by decide)).1
  · exact (claim1_roundtrip_data_scope (fun _ => "abc123") (fun _ _ => ["a@b.co"])
      [] "Contact a@b.co" "email" "a@b.co" "email" "outer" [] 0 false
      (by decide) rfl (by decide)).2.2.1

/-! ## C3: totality on unknown tokens -/

theorem splitOnChar_ne_nil (sep : Char) (l : List Char) : splitOnChar sep l ≠ [] := by
  cases l with
  | nil => simp [splitOnChar]
  | cons c cs =>
      unfold splitOnChar
      by_cases hc : c = sep
      · simp [hc]
      · rw [if_neg hc]
        cases h : splitOnChar sep cs with
        | nil => simp
        | cons p ps => simp

theorem splitOnChar_two_pieces {sep : Char} {l : List Char}
    (h : sep ∈ l) : ∃ p0 p1 rest, splitOnChar sep l = p0 :: p1 :: rest := by
  induction l with
  | nil => cases h
  | cons c cs ih =>
      unfold splitOnChar
      by_cases hc : c = sep
      · rw [if_pos hc]
        cases hs : splitOnChar sep cs with
        | nil => exact absurd hs (splitOnChar_ne_nil sep cs)
        | cons p ps => exact ⟨[], p, ps, rfl⟩
      · rw [if_neg hc]
        have hmem : sep ∈ cs := by
          rcases List.mem_cons.mp h with h' | h'
          · exact absurd h'.symm hc
          · exact h'
        rcases ih hmem with ⟨p0, p1, rest, hs⟩
        rw [hs]
        exact ⟨c :: p0, p1, rest, rfl⟩

/-- Masking an unknown token never raises: the token string starts with
`'P'`, so the local part before a first `'@'` is never empty and the
`IndexError` branch is unreachable. -/
theorem maskValue_PII_total (x : String) :
    ∃ y, maskValue ("PII_" ++ x) = some y := by
  unfold maskValue
  by_cases hc : ("PII_" ++ x).data.contains '@'
  · rw [if_pos hc]
    have hdata : ("PII_" ++ x).data = 'P' :: ('I' :: 'I' :: '_' :: x.data) := by
      rw [String.data_append]; rfl
    have hmem : '@' ∈ ('I' :: 'I' :: '_' :: x.data) := by
      have : '@' ∈ ("PII_" ++ x).data := by simpa [List.contains] using hc
      rw [hdata] at this
      rcases List.mem_cons.mp this with h' | h'
      · cases h'
      · exact h'
    rcases splitOnChar_two_pieces hmem with ⟨p0, p1, rest, hs⟩
    rw [hdata]
    unfold splitOnChar
    rw [if_neg (by decide : ¬ ('P' = '@')), hs]
    simp
  · rw [if_neg hc]
    by_cases hd : !((("PII_" ++ x).data.filter (fun c => c ≠ '-' && c ≠ '.')).isEmpty) &&
        (("PII_" ++ x).data.filter (fun c => c ≠ '-' && c ≠ '.')).all Char.isDigit
    · rw [if_pos hd]; exact ⟨_, rfl⟩
    · rw [if_neg hd]; exact ⟨_, rfl⟩

/-- C3 counterexample: with an empty vault, the token-shaped string
`PII_EMAIL_abc123` in a structured value is returned unchanged by
`_detokenize`, but `_mask_for_display` does not pass it through: it masks
the token string itself down to `PI***`. -/
theorem claim3_counterexample :
    detokenize [] (.obj [("k", .str "PII_EMAIL_abc123")]) =
      .obj [("k", .str "PII_EMAIL_abc123")] ∧
    mask_for_display [] (.obj [("k", .str "PII_EMAIL_abc123")]) =
      some (.obj [("k", .str "PI***")]) ∧
    ("PI***" : String) ≠ "PII_EMAIL_abc123" := by
  exact ⟨rfl, rfl, by decide⟩

/-- C3 amended: on a token-shaped string value (prefix `PII_`) absent from
the vault, `_detokenize` returns the string unchanged, and
`_mask_for_display` never raises but applies the masking rules to the
token string itself: with no `'@'` in the token (and the `PII` prefix
excluding the all-digits rule) it yields the token's first two characters
`PI` followed by `***`. -/
theorem claim3_unknown_token_totality (vault : Vault) (x k : String)
    (hmiss : vaultLookup vault ("PII_" ++ x) = none)
    (hat : ("PII_" ++ x).data.contains '@' = false) :
    detokenize vault (.obj [(k, .str ("PII_" ++ x))]) =
      .obj [(k, .str ("PII_" ++ x))] ∧
    mask_for_display vault (.obj [(k, .str ("PII_" ++ x))]) =
      some (.obj [(k, .str ("PI" ++ "***"))]) ∧
    (∃ y, maskValue ("PII_" ++ x) = some y) := by
  have hsw : pyStartsWith ("PII_" ++ x) "PII_" = true := by
    unfold pyStartsWith
    rw [String.data_append]
    exact isPrefixOf_append_self _ _
  have hdata : ("PII_" ++ x).data = 'P' :: 'I' :: 'I' :: '_' :: x.data := by
    rw [String.data_append]; rfl
  have hmask : maskValue ("PII_" ++ x) = some ("PI" ++ "***") := by
    unfold maskValue
    rw [hat]
    have hfil : ("PII_" ++ x).data.filter (fun c => c ≠ '-' && c ≠ '.') =
        'P' :: (('I' :: 'I' :: '_' :: x.data).filter (fun c => c ≠ '-' && c ≠ '.')) := by
      rw [hdata]; rfl
    have hcond : (!((("PII_" ++ x).data.filter (fun c => c ≠ '-' && c ≠ '.')).isEmpty) &&
        (("PII_" ++ x).data.filter (fun c => c ≠ '-' && c ≠ '.')).all Char.isDigit) = false := by
      rw [hfil]; rfl
    rw [hcond]
    have htake : ("PII_" ++ x).data.take 2 = ['P', 'I'] := by rw [hdata]; rfl
    simp [htake]
    rfl
  refine ⟨?_, ?_, ⟨_, hmask⟩⟩
  · simp [detokenize, detokenizeEntries, Json.isObj, hsw, hmiss]
  · simp [mask_for_display, maskEntries, Json.isObj, hsw, hmiss, hmask]

/-- Concrete instance of C3 as amended: the unknown token
`PII_EMAIL_abc123` survives detokenization and is masked to `PI***`. -/
theorem claim3_witness :
    vaultLookup [] ("PII_" ++ "EMAIL_abc123") = none ∧
    ("PII_" ++ "EMAIL_abc123").data.contains '@' = false ∧
    detokenize [] (.obj [("k", .str ("PII_" ++ "EMAIL_abc123"))]) =
      .obj [("k", .str ("PII_" ++ "EMAIL_abc123"))] ∧
    mask_for_display [] (.obj [("k", .str ("PII_" ++ "EMAIL_abc123"))]) =
      some (.obj [("k", .str ("PI" ++ "***"))]) := by
  refine ⟨rfl, by decide, ?_, ?_⟩
  · exact (claim3_unknown_token_totality [] "EMAIL_abc123" "k" rfl (by decide)).1
  · exact (claim3_unknown_token_totality [] "EMAIL_abc123" "k" rfl (by decide)).2.1

/-! ## C4: router rule -/

/-- C4 counterexample: the underscore is a regex word character (`\w`), so
`hello_world` has no "complex pattern" for `_route_model` and stays on the
base model, while the claim's reading -- "any character outside
alphanumeric/whitespace" -- classifies `_` as complex and demands the
configured fallback. -/
theorem claim4_counterexample :
    route_model "hello_world"
        { template := none, model := some "gpt-4o-mini",
          fallbackModel := some "o1-mini", complexityThreshold := some 100,
          piiMasking := [], outputSchemaRequired := [] } = "gpt-4o-mini" ∧
    route_model_claim "hello_world"
        { template := none, model := some "gpt-4o-mini",
          fallbackModel := some "o1-mini", complexityThreshold := some 100,
          piiMasking := [], outputSchemaRequired := [] } = "o1-mini" ∧
    ("gpt-4o-mini" : String) ≠ "o1-mini" := by
  exact ⟨by decide, by decide, by decide⟩

/-- C4 amended: `_route_model` is a pure function of `(inputText, config)`
(determinism is immediate); it returns the configured fallback exactly when
the whitespace-delimited word count exceeds the threshold (default 100) or
some character is outside word characters (alphanumeric or underscore) and
whitespace, and a nonempty fallback is configured; in every other case it
returns `config.model` (default `gpt-4o-mini`). -/
theorem claim4_route_characterization (text : String) (cfg : Config) :
    (∀ fb, cfg.fallbackModel = some fb → fb ≠ "" →
      (decide ((pySplit text).length > cfg.complexityThreshold.getD 100) ||
        text.data.any (fun c => !(isWordChar c || isPySpace c))) = true →
      route_model text cfg = fb) ∧
    ((decide ((pySplit text).length > cfg.complexityThreshold.getD 100) ||
        text.data.any (fun c => !(isWordChar c || isPySpace c))) = false →
      route_model text cfg = cfg.model.getD "gpt-4o-mini") ∧
    ((cfg.fallbackModel = none ∨ cfg.fallbackModel = some "") →
      route_model text cfg = cfg.model.getD "gpt-4o-mini") := by
  unfold route_model
  dsimp only
  refine ⟨?_, ?_, ?_⟩
  · intro fb hfb hne hcond
    rw [hcond, hfb]
    simp [hne]
  · intro hcond
    rw [hcond]
    simp
  · intro hfb
    rcases hfb with hfb | hfb <;>
      rw [hfb] <;> cases hcond : (decide ((pySplit text).length > cfg.complexityThreshold.getD 100) ||
        text.data.any (fun c => !(isWordChar c || isPySpace c))) <;> simp

/-- Concrete routing for C4 as amended: a punctuated short input goes to
the configured fallback; a plain short input stays on the base model. -/
theorem claim4_witness :
    (decide ((pySplit "Is this complex?").length > (100 : Nat)) ||
      "Is this complex?".data.any (fun c => !(isWordChar c || isPySpace c))) = true ∧
    route_model "Is this complex?"
        { template := none, model := some "gpt-4o-mini",
          fallbackModel := some "o1-mini", complexityThreshold := some 100,
          piiMasking := [], outputSchemaRequired := [] } = "o1-mini" ∧
    route_model "Hello world"
        { template := none, model := some "gpt-4o-mini",
          fallbackModel := some "o1-mini", complexityThreshold := some 100,
          piiMasking := [], outputSchemaRequired := [] } = "gpt-4o-mini" := by
  refine ⟨by decide, ?_, ?_⟩
  · exact (claim4_route_characterization "Is this complex?"
      { template := none, model := some "gpt-4o-mini",
        fallbackModel := some "o1-mini", complexityThreshold := some 100,
        piiMasking := [], outputSchemaRequired := [] }).1 "o1-mini" rfl (by decide) (by decide)
  · exact (claim4_route_characterization "Hello world"
      { template := none, model := some "gpt-4o-mini",
        fallbackModel := some "o1-mini", complexityThreshold := some 100,
        piiMasking := [], outputSchemaRequired := [] }).2.1 (by decide)

/-! ## C5: validator contract -/

theorem missingFieldsOf_obj (kvs : List (String × Json)) (required : List String) :
    missingFieldsOf (.obj kvs) required =
      some (required.filter (fun f => !((kvs.map Prod.fst).contains f))) := by
  induction required with
  | nil => rfl
  | cons f fs ih =>
      unfold missingFieldsOf
      rw [show pyContains (.obj kvs) f = some ((kvs.map Prod.fst).contains f) from rfl, ih]
      cases hc : (kvs.map Prod.fst).contains f with
      | false =>
          have hc2 : decide (f ∈ kvs.map Prod.fst) = false := by
            rw [← hc]; simp [List.contains]
          simp [List.filter_cons, hc, hc2]
      | true =>
          have hc2 : decide (f ∈ kvs.map Prod.fst) = true := by
            rw [← hc]; simp [List.contains]
          simp [List.filter_cons, hc, hc2]

/-- C5 counterexample: the response text `"name"` parses as a JSON string
(not an object); Python evaluates `'name' not in parsed` as a substring
test, so `_validate_schema` reports no missing fields and passes
validation, while the claim demands `missingFields = ['name']` (a
non-object has no keys) and hence a failed validation. -/
theorem claim5_counterexample :
    (validate_schema "\"name\"" (some (.str "name")) ["name"]).map VResult.missing_fields =
      some [] ∧
    (validate_schema "\"name\"" (some (.str "name")) ["name"]).map VResult.validation_passed =
      some true ∧
    missingFieldsClaim (.str "name") ["name"] = ["name"] ∧
    (["name"] : List String) ≠ [] := by
  exact ⟨rfl, rfl, rfl, by decide⟩

/-- C5 amended: on a parse failure `_validate_schema` returns the error
payload with the raw text preserved verbatim, `validationPassed = false`
and no missing fields; when the text parses to a JSON *object* it returns
the parsed object unmodified with `missingFields` exactly the required
fields absent from the object's keys and `validationPassed` iff that list
is empty.  (For non-object parses the code applies Python `in` semantics
-- substring test on strings, element test on arrays, `TypeError` on
scalars -- instead of the claimed key test.) -/
theorem claim5_validator_contract (response : String) (required : List String)
    (kvs : List (String × Json)) :
    (validate_schema response none required).map VResult.data =
      some (.obj [("error", .str "Invalid JSON response"),
                  ("raw_response", .str response)]) ∧
    (validate_schema response none required).map VResult.validation_passed = some false ∧
    (validate_schema response none required).map VResult.missing_fields = some [] ∧
    (validate_schema response (some (.obj kvs)) required).map VResult.data =
      some (.obj kvs) ∧
    (validate_schema response (some (.obj kvs)) required).map VResult.missing_fields =
      some (required.filter (fun f => !((kvs.map Prod.fst).contains f))) ∧
    (validate_schema response (some (.obj kvs)) required).map VResult.validation_passed =
      some (decide ((required.filter (fun f => !((kvs.map Prod.fst).contains f))).length = 0)) := by
  refine ⟨rfl, rfl, rfl, ?_, ?_, ?_⟩ <;>
    · rw [show validate_schema response (some (.obj kvs)) required =
            (do
              let missing ← missingFieldsOf (Json.obj kvs) required
              pure { data := Json.obj kvs,
                     validation_passed := decide (missing.length = 0),
                     missing_fields := missing }) from rfl,
          missingFieldsOf_obj]
      rfl

/-! ## C6: fail-fast on unknown use case -/

/-- C6: for a use case outside the template registry, `get_template`
returns `None`, and `process` raises (`config.get` on `None` is an
`AttributeError`) before touching any state: the vault, the audit log, the
cost total and the request counter are unchanged and no result dict is
produced. -/
theorem claim6_unknown_use_case_fail_fast
    (digest : String → String) (matcher : String → String → List String)
    (parse : String → Option Json) (llm : String → String → String)
    (strWords : Json → Nat) (now : String) (elapsedA elapsedR : ℚ)
    (useCase inputText : String) (st : GatewayState)
    (h : useCase ∉ ["support_ticket_classifier", "onboarding_document_extractor",
                    "employee_faq_bot"]) :
    getTemplate useCase = none ∧
    process digest matcher parse llm strWords now elapsedA elapsedR
        useCase inputText (getTemplate useCase) st =
      (st, Except.error PyErr.attributeError) := by
  have h1 : ¬ useCase = "support_ticket_classifier" := fun hc => h (by simp [hc])
  have h2 : ¬ useCase = "onboarding_document_extractor" := fun hc => h (by simp [hc])
  have h3 : ¬ useCase = "employee_faq_bot" := fun hc => h (by simp [hc])
  have hnone : getTemplate useCase = none := by
    unfold getTemplate
    rw [if_neg h1, if_neg h2, if_neg h3]
  refine ⟨hnone, ?_⟩
  rw [hnone]
  rfl

/-- Concrete instance of C6: a gateway in its initial state, asked for the
use case `invoice_summarizer`, raises and stays in its initial state. -/
theorem claim6_witness :
    ("invoice_summarizer" : String) ∉
      ["support_ticket_classifier", "onboarding_document_extractor", "employee_faq_bot"] ∧
    getTemplate "invoice_summarizer" = none ∧
    process (fun _ => "") (fun _ _ => []) (fun _ => none) (fun _ _ => "")
        (fun _ => 0) "2024-01-01" 0 0 "invoice_summarizer" "text"
        (getTemplate "invoice_summarizer") initialState =
      (initialState, Except.error PyErr.attributeError) := by
  refine ⟨by decide, ?_, ?_⟩
  · exact (claim6_unknown_use_case_fail_fast (fun _ => "") (fun _ _ => []) (fun _ => none)
      (fun _ _ => "") (fun _ => 0) "2024-01-01" 0 0 "invoice_summarizer" "text"
      initialState (by decide)).1
  · exact (claim6_unknown_use_case_fail_fast (fun _ => "") (fun _ _ => []) (fun _ => none)
      (fun _ _ => "") (fun _ => 0) "2024-01-01" 0 0 "invoice_summarizer" "text"
      initialState (by decide)).2

/-! ## C7: bounded audit FIFO -/

/-- C7 counterexample: `get_audit_log` with `limit = 0` on a one-entry log
returns the whole log (Python `lst[-0:]` is `lst[0:]`), one entry more than
the claimed bound `min(0, size) = 0`. -/
theorem claim7_counterexample :
    (get_audit_log [{ timestamp := "t", use_case := "u", original_input_length := 0,
                      cleaned_input_length := 0, pii_masked_count := 0, model_used := "m",
                      output_keys := [], cost := 0, processing_time := 0,
                      confidence := Json.num 0, validation_passed := false }] 0).length = 1 ∧
    ¬ ((1 : Nat) ≤ min 0 1) := by
  exact ⟨rfl, by decide⟩

/-- C7 amended: the audit deque holds at most 1000 entries, appending to a
full log drops exactly the oldest entry, appending below capacity is a
plain append; for `limit ≥ 1`, `get_audit_log` returns the suffix of the
`min(limit, size)` most recent entries in log order (oldest of the returned
slice first); for `limit = 0` it returns the entire retained log. -/
theorem claim7_bounded_fifo (log : List AuditEntry) (e : AuditEntry) (k : Nat) :
    (log.length = 1000 → auditAppend log e = log.tail ++ [e]) ∧
    (log.length < 1000 → auditAppend log e = log ++ [e]) ∧
    (log.length ≤ 1000 → (auditAppend log e).length ≤ 1000) ∧
    (1 ≤ k → get_audit_log log k = log.drop (log.length - k)) ∧
    (1 ≤ k → (get_audit_log log k).length = min k log.length) ∧
    get_audit_log log 0 = log := by
  have happend : ∀ h : log.length = 1000, auditAppend log e = log.tail ++ [e] := by
    intro h
    unfold auditAppend
    rw [List.length_append, h]
    norm_num
    cases log with
    | nil => simp at h
    | cons a t => rfl
  have hlt : ∀ h : log.length < 1000, auditAppend log e = log ++ [e] := by
    intro h
    unfold auditAppend
    rw [List.length_append]
    have : log.length + [e].length - 1000 = 0 := by
      simp only [List.length_singleton]
      omega
    rw [this, List.drop_zero]
  have hget : ∀ h : 1 ≤ k, get_audit_log log k = log.drop (log.length - k) := by
    intro hk
    unfold get_audit_log
    cases hlog : log.isEmpty with
    | true =>
        rw [List.isEmpty_iff] at hlog
        simp [hlog]
    | false =>
        rw [if_neg (by simp [hlog]), if_neg (by omega)]
  refine ⟨happend, hlt, ?_, hget, ?_, ?_⟩
  · intro h
    rcases Nat.lt_or_ge log.length 1000 with hl | hl
    · rw [hlt hl, List.length_append]
      simp only [List.length_singleton]
      omega
    · have h1000 : log.length = 1000 := le_antisymm h hl
      rw [happend h1000, List.length_append, List.length_tail, h1000]
      simp
  · intro hk
    rw [hget hk, List.length_drop]
    omega
  · unfold get_audit_log
    cases hlog : log.isEmpty with
    | true =>
        rw [List.isEmpty_iff] at hlog
        simp [hlog]
    | false => rw [if_neg (by simp [hlog]), if_pos rfl]

set_option maxRecDepth 4000 in
/-- Concrete instance of C7 as amended: appending to a full 1000-entry log
evicts the oldest entry, and a `limit = 5` read returns `min 5 1000`
entries. -/
theorem claim7_witness :
    auditAppend (List.replicate 1000 (⟨"t", "u", 0, 0, 0, "m", [], 0, 0, Json.num 0, false⟩ : AuditEntry))
        ⟨"t2", "u", 0, 0, 0, "m", [], 0, 0, Json.num 0, false⟩ =
      (List.replicate 1000 (⟨"t", "u", 0, 0, 0, "m", [], 0, 0, Json.num 0, false⟩ : AuditEntry)).tail ++
        [⟨"t2", "u", 0, 0, 0, "m", [], 0, 0, Json.num 0, false⟩] ∧
    (get_audit_log (List.replicate 1000 (⟨"t", "u", 0, 0, 0, "m", [], 0, 0, Json.num 0, false⟩ : AuditEntry)) 5).length =
      min 5 1000 := by
  constructor
  · exact (claim7_bounded_fifo _ _ 5).1 (by simp)
  · have h := (claim7_bounded_fifo
        (List.replicate 1000 (⟨"t", "u", 0, 0, 0, "m", [], 0, 0, Json.num 0, false⟩ : AuditEntry))
        ⟨"t2", "u", 0, 0, 0, "m", [], 0, 0, Json.num 0, false⟩ 5).2.2.2.2.1 (by omega)
    rw [h]
    simp

/-! ## C8: cost accounting -/

theorem runCosts_eq_sum (calls : List (String × Nat × Nat)) (tc : ℚ) :
    runCosts calls tc = tc + (calls.map (fun c => rawCost c.1 c.2.1 c.2.2)).sum := by
  induction calls generalizing tc with
  | nil => simp [runCosts]
  | cons c cs ih =>
      unfold runCosts at ih ⊢
      rw [List.foldl_cons, ih, List.map_cons, List.sum_cons]
      show tc + rawCost c.1 c.2.1 c.2.2 + _ = _
      ring

/-- C8 counterexample: one input word on `gpt-4o-mini` costs
`0.00015/1000 = 0.00000015`, which rounds to `0` at 6 decimal places; the
call returns `0` but adds the unrounded `0.00000015` to the running total,
so the total does not equal the sum of the returned costs. -/
theorem claim8_counterexample :
    (calculate_cost "gpt-4o-mini" 1 0 0).1 = 0 ∧
    (calculate_cost "gpt-4o-mini" 1 0 0).2 = 3 / 20000000 ∧
    ((3 : ℚ) / 20000000) ≠ 0 := by
  refine ⟨?_, ?_, by norm_num⟩
  · unfold calculate_cost rawCost modelCostLookup MODEL_COSTS
    norm_num
    unfold pyRound roundHalfEven
    norm_num
  · unfold calculate_cost rawCost modelCostLookup MODEL_COSTS
    norm_num

/-- C8 amended: `_calculate_cost` looks the rates up in the table, falling
back to the `gpt-4o-mini` rates for an unknown model, returns
`round(cost, 6)` for `cost = (in*rateIn + out*rateOut)/1000`, and adds the
*unrounded* cost to the gateway total; over any sequence of calls the
running total is the initial total plus the sum of the unrounded costs
(which, by the counterexample, can differ from the sum of the returned
rounded values). -/
theorem claim8_cost_accounting (model : String) (i o : Nat) (tc : ℚ)
    (calls : List (String × Nat × Nat)) :
    calculate_cost model i o tc = (pyRound (rawCost model i o) 6, tc + rawCost model i o) ∧
    (modelCostLookup model = none →
      rawCost model i o = ((i : ℚ) * (15 / 100000) + (o : ℚ) * (6 / 10000)) / 1000) ∧
    runCosts calls tc = tc + (calls.map (fun c => rawCost c.1 c.2.1 c.2.2)).sum := by
  refine ⟨rfl, ?_, runCosts_eq_sum calls tc⟩
  intro hnone
  unfold rawCost
  rw [hnone]
  rfl

/-- Concrete instance of C8 as amended: an unknown model id uses the
`gpt-4o-mini` rates and the total accumulates the raw cost. -/
theorem claim8_witness :
    modelCostLookup "claude-3" = none ∧
    calculate_cost "claude-3" 2 3 5 =
      (pyRound (rawCost "claude-3" 2 3) 6, 5 + rawCost "claude-3" 2 3) ∧
    rawCost "claude-3" 2 3 = (((2 : Nat) : ℚ) * (15 / 100000) + ((3 : Nat) : ℚ) * (6 / 10000)) / 1000 ∧
    runCosts [("gpt-4o", 1, 1)] 0 =
      0 + ([("gpt-4o", 1, 1)].map (fun c => rawCost c.1 c.2.1 c.2.2)).sum := by
  refine ⟨rfl, ?_, ?_, ?_⟩
  · exact (claim8_cost_accounting "claude-3" 2 3 5 [("gpt-4o", 1, 1)]).1
  · exact (claim8_cost_accounting "claude-3" 2 3 5 [("gpt-4o", 1, 1)]).2.1 rfl
  · exact (claim8_cost_accounting "claude-3" 2 3 0 [("gpt-4o", 1, 1)]).2.2

/-! ## C9: stats views -/

/-- C9 counterexample: in a state whose retained log holds one entry of
cost 1 while the lifetime counters read `totalCost = 3` over
`requestCount = 2` (as after eviction or rounding drift), `get_stats`
reports `avg_cost_per_request = 3/2` -- computed from the lifetime
counters -- whereas the average over the entries currently retained is 1,
contradicting the claim that `avgCostPerRequest` is computed over the
retained entries. -/
theorem claim9_counterexample :
    statsField ⟨[⟨"t", "u", 0, 0, 0, "m", [], 1, 0, Json.num 0, false⟩], 3, 2, []⟩
        "avg_cost_per_request" = some (.num (3 / 2)) ∧
    (([⟨"t", "u", 0, 0, 0, "m", [], 1, 0, Json.num 0, false⟩] : List AuditEntry).map
        AuditEntry.cost).sum /
      ((([⟨"t", "u", 0, 0, 0, "m", [], 1, 0, Json.num 0, false⟩] : List AuditEntry).length : Nat) : ℚ) =
      1 ∧
    ((3 : ℚ) / 2) ≠ 1 := by
  refine ⟨?_, by norm_num, by norm_num⟩
  unfold statsField get_stats
  norm_num [sumConfidence, sumConfidenceAux, pyNumAdd, objLookup]
  simp
  unfold pyRound roundHalfEven
  norm_num

/-- C9 amended: on an empty log `get_stats` returns the three-key zero
aggregate; otherwise `requests` and `total_cost` come from the lifetime
counters, `avg_confidence` and `avg_processing_time` are averages over the
retained entries, and `avg_cost_per_request` is the lifetime
`totalCost / requestCount` (rounded), not a retained-entry average. -/
theorem claim9_stats_views (st : GatewayState) (q : ℚ) :
    (st.auditLog.isEmpty = true →
      get_stats st = some (.obj [("requests", .num 0), ("total_cost", .num 0),
                                 ("avg_confidence", .num 0)])) ∧
    (st.auditLog.isEmpty = false → sumConfidence st.auditLog = some q →
      get_stats st = some (.obj
        [("requests", .num st.requestCount),
         ("total_cost", .num (pyRound st.totalCost 6)),
         ("avg_cost_per_request",
           .num (if st.requestCount > 0 then pyRound (st.totalCost / (st.requestCount : ℚ)) 6 else 0)),
         ("avg_confidence", .num (pyRound (q / (st.auditLog.length : ℚ)) 2)),
         ("avg_processing_time",
           .num (pyRound (sumProcessingTime st.auditLog / (st.auditLog.length : ℚ)) 2))])) := by
  constructor
  · intro h
    unfold get_stats
    rw [h]
    rfl
  · intro h hq
    unfold get_stats
    rw [h, hq]
    rfl

/-- Concrete instance of C9 as amended: the non-empty-log branch of
`get_stats` on a one-entry log with lifetime counters `(3, 2)`. -/
theorem claim9_witness :
    ([(⟨"t", "u", 0, 0, 0, "m", [], 1, 0, Json.num 0, false⟩ : AuditEntry)].isEmpty = false) ∧
    sumConfidence [⟨"t", "u", 0, 0, 0, "m", [], 1, 0, Json.num 0, false⟩] = some (0 + 0) ∧
    get_stats ⟨[⟨"t", "u", 0, 0, 0, "m", [], 1, 0, Json.num 0, false⟩], 3, 2, []⟩ = some (.obj
      [("requests", .num ((2 : Nat) : ℚ)),
       ("total_cost", .num (pyRound 3 6)),
       ("avg_cost_per_request",
         .num (if (2 : Nat) > 0 then pyRound ((3 : ℚ) / ((2 : Nat) : ℚ)) 6 else 0)),
       ("avg_confidence",
         .num (pyRound ((0 + 0) /
           ((([(⟨"t", "u", 0, 0, 0, "m", [], 1, 0, Json.num 0, false⟩ : AuditEntry)].length : Nat) : ℚ))) 2)),
       ("avg_processing_time",
         .num (pyRound (sumProcessingTime [⟨"t", "u", 0, 0, 0, "m", [], 1, 0, Json.num 0, false⟩] /
           ((([(⟨"t", "u", 0, 0, 0, "m", [], 1, 0, Json.num 0, false⟩ : AuditEntry)].length : Nat) : ℚ))) 2))]) := by
  refine ⟨rfl, rfl, ?_⟩
  exact (claim9_stats_views
    ⟨[⟨"t", "u", 0, 0, 0, "m", [], 1, 0, Json.num 0, false⟩], 3, 2, []⟩ (0 + 0)).2 rfl rfl

/-! ## C10: the pii_tokens field lists the whole vault -/

theorem vaultInsert_keys_mono {t : String} {v : Vault} (k val : String)
    (h : t ∈ v.map Prod.fst) : t ∈ (vaultInsert v k val).map Prod.fst := by
  unfold vaultInsert
  by_cases hc : (v.map Prod.fst).contains k
  · rw [if_pos hc]
    rcases List.mem_map.mp h with ⟨p, hp, hpt⟩
    rcases Decidable.em (p.1 = k) with hpk | hpk
    · exact List.mem_map.mpr ⟨(k, val), List.mem_map.mpr ⟨p, hp, by simp [hpk]⟩, by
        rw [← hpt, hpk]⟩
    · exact List.mem_map.mpr ⟨p, List.mem_map.mpr ⟨p, hp, by simp [hpk]⟩, hpt⟩
  · rw [if_neg hc, List.map_append]
    exact List.mem_append_left _ h

theorem anonymizeMatches_keys_mono (digest : String → String) (ty : String)
    {t : String} (ms : List String) (acc : String × Nat × Vault)
    (h : t ∈ acc.2.2.map Prod.fst) :
    t ∈ (anonymizeMatches digest ty ms acc).2.2.map Prod.fst := by
  induction ms generalizing acc with
  | nil => exact h
  | cons m rest ih =>
      rcases acc with ⟨text, count, vault⟩
      unfold anonymizeMatches
      exact ih _ (vaultInsert_keys_mono _ m h)

theorem anonymize_pii_keys_mono (digest : String → String)
    (matcher : String → String → List String) {t : String}
    (vault : Vault) (text : String) (piiTypes : List String)
    (h : t ∈ vault.map Prod.fst) :
    t ∈ (anonymize_pii digest matcher vault text piiTypes).2.2.map Prod.fst := by
  unfold anonymize_pii
  suffices hgen : ∀ (tys : List String) (acc : String × Nat × Vault),
      t ∈ acc.2.2.map Prod.fst →
      t ∈ (tys.foldl (fun acc ty =>
            if piiPatternTypes.contains ty then
              anonymizeMatches digest ty (matcher ty acc.1) acc
            else acc) acc).2.2.map Prod.fst by
    exact hgen piiTypes (text, 0, vault) h
  intro tys
  induction tys with
  | nil => intro acc hacc; exact hacc
  | cons ty rest ih =>
      intro acc hacc
      rw [List.foldl_cons]
      apply ih
      by_cases hty : piiPatternTypes.contains ty
      · rw [if_pos hty]
        exact anonymizeMatches_keys_mono digest ty _ acc hacc
      · rw [if_neg hty]
        exact hacc

/-- C10: whenever `process` returns a result, its `pii_tokens` field is the
full list of keys of the gateway's vault after the call -- which contains
every key the vault held before the call, i.e. also the tokens minted by
earlier calls on the same gateway instance, not only this request's. -/
theorem claim10_pii_tokens_vault_keys
    (digest : String → String) (matcher : String → String → List String)
    (parse : String → Option Json) (llm : String → String → String)
    (strWords : Json → Nat) (now : String) (elapsedA elapsedR : ℚ)
    (useCase inputText : String) (cfg : Config) (st st' : GatewayState)
    (res : ProcessResult)
    (h : process digest matcher parse llm strWords now elapsedA elapsedR
      useCase inputText (some cfg) st = (st', Except.ok res)) :
    res.pii_tokens = st'.piiVault.map Prod.fst ∧
    ∀ t ∈ st.piiVault.map Prod.fst, t ∈ res.pii_tokens := by
  unfold process at h
  dsimp only at h
  split at h
  · simp at h
  · split at h
    · simp at h
    · split at h
      · simp at h
      · simp only [Prod.mk.injEq, Except.ok.injEq] at h
        obtain ⟨hst, hres⟩ := h
        constructor
        · rw [← hst, ← hres]
        · intro t ht
          rw [← hres]
          exact anonymize_pii_keys_mono digest matcher st.piiVault inputText
            cfg.piiMasking ht

/-- Concrete instance of C10: a gateway whose vault already holds a token
from an earlier call processes a PII-free request; the result's
`pii_tokens` still lists the old token. -/
theorem claim10_witness :
    process (fun _ => "d") (fun _ _ => []) (fun _ => some (.obj []))
        (fun _ _ => "x") (fun _ => 0) "now" 0 0 "uc" "hello"
        (some ⟨some "classification", some "gpt-4o-mini", none, none, [], []⟩)
        ⟨[], 0, 0, [("PII_EMAIL_x", "a@b.co")]⟩ =
      (⟨[⟨"now", "uc", 5, 5, 0, "gpt-4o-mini", [],
           pyRound (rawCost "gpt-4o-mini" 1 0) 6, 0, Json.num 0, true⟩],
        0 + rawCost "gpt-4o-mini" 1 0, 1, [("PII_EMAIL_x", "a@b.co")]⟩,
       Except.ok ⟨"hello", "hello", "gpt-4o-mini",
         .obj [("data", .obj []), ("validation_passed", .bool true), ("missing_fields", .arr [])],
         .obj [("data", .obj []), ("validation_passed", .bool true), ("missing_fields", .arr [])],
         pyRound (rawCost "gpt-4o-mini" 1 0) 6, 0, 0, ["PII_EMAIL_x"]⟩) ∧
    (["PII_EMAIL_x"] : List String) = ([("PII_EMAIL_x", "a@b.co")] : Vault).map Prod.fst ∧
    "PII_EMAIL_x" ∈ (["PII_EMAIL_x"] : List String) := by
  refine ⟨rfl, ?_, ?_⟩
  · exact (claim10_pii_tokens_vault_keys (fun _ => "d") (fun _ _ => []) (fun _ => some (.obj []))
      (fun _ _ => "x") (fun _ => 0) "now" 0 0 "uc" "hello"
      ⟨some "classification", some "gpt-4o-mini", none, none, [], []⟩
      ⟨[], 0, 0, [("PII_EMAIL_x", "a@b.co")]⟩ _ _ rfl).1
  · exact (claim10_pii_tokens_vault_keys (fun _ => "d") (fun _ _ => []) (fun _ => some (.obj []))
      (fun _ _ => "x") (fun _ => 0) "now" 0 0 "uc" "hello"
      ⟨some "classification", some "gpt-4o-mini", none, none, [], []⟩
      ⟨[], 0, 0, [("PII_EMAIL_x", "a@b.co")]⟩ _ _ rfl).2 "PII_EMAIL_x" (by simp)

end SCGateway
